import Mathlib

/-!
Shallow embedding of the Funnel Mastermind AI application
(streamlit_app.py) and verification of its specification claims.

Modelling conventions:
  * Numeric values produced by external services (embedding vector
    components, similarity scores, the sampling temperature) are modelled
    as rationals; the program never computes with them, it only passes
    them along.
  * A Python exception raised by an external call is modelled as
    `Except.error msg` where `msg` is the str of the exception; a function
    that catches exceptions returns a plain value, a function that lets
    them propagate returns `Except`.
  * The external world (OpenAI chat and embedding endpoints, the Supabase
    table and RPC, the pypdf page extractor, the langchain text splitter,
    uuid generation) is a record of deterministic oracle functions `Env`,
    universally quantified in the theorems.
  * Every external call a function makes is also recorded in a returned
    trace (`List ExtCall`), so that properties about the requests sent
    (model name, temperature, match count) are observable.
-/

/-- Message dict "role"/"content" as passed to the chat completions API and
as stored in the session chat history. -/
structure ChatMessage where
  role : String
  content : String
deriving DecidableEq

/-- Request of client.chat.completions.create. -/
structure ChatRequest where
  model : String
  messages : List ChatMessage
  temperature : ℚ
deriving DecidableEq

/-- Request of client.embeddings.create. -/
structure EmbedRequest where
  input : String
  model : String
deriving DecidableEq

/-- Value stored under a metadata key: the program stores strings (title,
author, category, filename) and one integer (chunk_index). -/
inductive MetaValue where
  | str (s : String)
  | nat (n : Nat)
deriving DecidableEq

/-- Python dict of metadata, modelled as an insertion-ordered association
list. -/
def Metadata : Type := List (String × MetaValue)

instance : DecidableEq Metadata := by
  unfold Metadata
  infer_instance

instance : Append Metadata := ⟨fun a b => List.append a b⟩

/-- Row returned by the match_documents RPC and the item shape of the
contexts list built from it: content, metadata, similarity. -/
structure RetrievalItem where
  content : String
  metadata : List (String × MetaValue)
  similarity : ℚ
deriving DecidableEq

/-- Record inserted into the funnel_documents table. -/
structure InsertRecord where
  id : String
  content : String
  embedding : List ℚ
  metadata : List (String × MetaValue)
deriving DecidableEq

/-- One external call made by the program, as recorded in traces. -/
inductive ExtCall where
  | embeddingsCreate (req : EmbedRequest)
  | chatCompletionsCreate (req : ChatRequest)
  | rpcMatchDocuments (queryEmbedding : List ℚ) (matchCount : Nat)
  | tableInsert (record : InsertRecord)
  | tableSelectLimit1
deriving DecidableEq

/-- Deterministic model of the external services the program calls.
`Except.error` models the call raising a Python exception. -/
structure Env where
  /-- client.embeddings.create -/
  embed : EmbedRequest → Except String (List ℚ)
  /-- client.chat.completions.create; the String is choices[0].message.content -/
  chat : ChatRequest → Except String String
  /-- supabase.rpc("match_documents", ...); the list is result.data -/
  matchDocuments : List ℚ → Nat → Except String (List RetrievalItem)
  /-- supabase.table("funnel_documents").insert(...).execute() -/
  insert : InsertRecord → Except String Unit
  /-- supabase.table("funnel_documents").select("*").limit(1).execute(),
  result discarded (store_embeddings line 123) -/
  selectStar : Except String Unit
  /-- supabase.table("funnel_documents").select("id").limit(1).execute();
  the list is result.data, one id per row (check_documents) -/
  selectProbe : Except String (List String)
  /-- str(uuid.uuid4()) for the chunk at the given index -/
  uuid : Nat → String
  /-- pypdf.PdfReader(...).pages with page.extract_text() applied; error
  models any exception while opening or reading the PDF -/
  pdfPages : String → Except String (List String)
  /-- RecursiveCharacterTextSplitter(chunk_size, chunk_overlap).split_text -/
  textSplitter : Nat → Nat → String → List String

/-- SYSTEM_PROMPT constant (lines 35-43). -/
def SYSTEM_PROMPT : String :=
  "\nVocê é o Funnel Mastermind AI, um especialista em funis de vendas, copywriting e marketing digital.\n\nVocê foi criado por Glauco, um especialista em funis de vendas que está se posicionando como autoridade em funis perpétuos.\n\nSeja específico, estratégico e utilize os princípios de Brevidade Inteligente: comunicação clara, direta e valiosa.\n\nUse um tom consultivo profissional, direto e preciso, evitando linguagem genérica ou \"coachzística\".\n"

/-- KNOWLEDGE_PROMPT template (lines 45-61) already applied to its two
format fields, i.e. KNOWLEDGE_PROMPT.format(context=..., question=...). -/
def KNOWLEDGE_PROMPT (context question : String) : String :=
  "\nVocê é o Funnel Mastermind AI, um especialista em funis de vendas, copywriting e marketing digital.\n\nVocê foi criado por Glauco, um especialista em funis de vendas que está se posicionando como autoridade em funis perpétuos.\n\nResponda à pergunta do usuário usando apenas as informações fornecidas no CONTEXTO abaixo. Se a resposta não estiver contida no CONTEXTO, diga que você não tem essa informação específica na sua base de conhecimento.\n\nSeja específico, estratégico e utilize os princípios de Brevidade Inteligente: comunicação clara, direta e valiosa.\n\nUse um tom consultivo profissional, direto e preciso, evitando linguagem genérica ou \"coachzística\".\n\nCONTEXTO:\n"
    ++ context ++ "\n\nPERGUNTA:\n" ++ question ++ "\n"

/-- FUNNEL_ANALYSIS_PROMPT constant (lines 63-72). -/
def FUNNEL_ANALYSIS_PROMPT : String :=
  "\nAnalise o funil descrito abaixo com base no seu conhecimento especializado. Avalie:\n\n1. Estrutura do funil (Tipo de funil, fases, componentes)\n2. Pontos fortes e oportunidades de melhoria\n3. Estratégias de otimização recomendadas\n4. Métricas que devem ser monitoradas\n\nDescrição do funil:\n"

/-- EMAIL_F4_PROMPT template (lines 74-88) already applied to its format
fields offer, audience, objective. -/
def EMAIL_F4_PROMPT (offer audience objective : String) : String :=
  "\nCrie um e-mail seguindo o framework F4 (Seinfeld + Brevidade Inteligente) com:\n\n1. Assunto magnetizante que gera curiosidade\n2. Abertura com gancho ou história que prende atenção\n3. Ponte para o conteúdo principal\n4. Conteúdo relevante e com valor prático\n5. Call-to-action claro e persuasivo\n\nO e-mail deve parecer pessoal, criar conexão, ter elementos de storytelling e seguir o princípio da Brevidade Inteligente.\n\nProduto/Oferta: "
    ++ offer ++ "\nPúblico-alvo: " ++ audience ++ "\nObjetivo do e-mail: " ++ objective ++ "\n"

/-- extract_text_from_pdf (lines 91-109): concatenates each page text plus
a newline; any exception is caught, shown with st.error, and None is
returned (modelled as `none`). -/
def extract_text_from_pdf (env : Env) (pdf_data : String) : Option String :=
  match env.pdfPages pdf_data with
  | .ok pages => some (pages.foldl (fun text page => text ++ page ++ "\n") "")
  | .error _ => none

/-- split_text (lines 112-118): delegates to the external
RecursiveCharacterTextSplitter with chunk_size 1000 and chunk_overlap 200. -/
def split_text (env : Env) (text : String) : List String :=
  env.textSplitter 1000 200 text

/-- Python dict key assignment d[k] = v on an association list: replaces
the value in place when the key exists, else appends the pair. -/
def setKey (m : List (String × MetaValue)) (k : String) (v : MetaValue) :
    List (String × MetaValue) :=
  if m.any (fun p => p.1 = k) then
    m.map (fun p => if p.1 = k then (k, v) else p)
  else
    m ++ [(k, v)]

/-- Per-chunk body of the store_embeddings loop (lines 126-144), processing
the remaining chunks from index i on: embed the chunk, merge chunk_index
into the metadata, insert the record. A failing call stops the loop with
that error (the exception propagates out of the for loop); each successful
insert appends its record to the table state. -/
def store_embeddings_go (env : Env) (metadata : List (String × MetaValue)) :
    List String → Nat → List InsertRecord →
    Except String Unit × List InsertRecord × List ExtCall
  | [], _, table => (.ok (), table, [])
  | chunk :: rest, i, table =>
    let req : EmbedRequest := { input := chunk, model := "text-embedding-3-small" }
    match env.embed req with
    | .error e => (.error e, table, [.embeddingsCreate req])
    | .ok embedding =>
      let full_metadata := setKey metadata "chunk_index" (.nat i)
      let record : InsertRecord :=
        { id := env.uuid i, content := chunk, embedding := embedding,
          metadata := full_metadata }
      match env.insert record with
      | .error e => (.error e, table, [.embeddingsCreate req, .tableInsert record])
      | .ok _ =>
        let next := store_embeddings_go env metadata rest (i + 1) (table ++ [record])
        (next.1, next.2.1, .embeddingsCreate req :: .tableInsert record :: next.2.2)

/-- store_embeddings (lines 121-146): probes the table with a select, then
stores every chunk in order; on full success returns len(chunks). `table`
is the current content of the external funnel_documents table; the middle
component of the result is its content afterwards. -/
def store_embeddings (env : Env) (chunks : List String)
    (metadata : List (String × MetaValue)) (table : List InsertRecord) :
    Except String Nat × List InsertRecord × List ExtCall :=
  match env.selectStar with
  | .error e => (.error e, table, [.tableSelectLimit1])
  | .ok _ =>
    match store_embeddings_go env metadata chunks 0 table with
    | (.ok _, table1, tr) => (.ok chunks.length, table1, .tableSelectLimit1 :: tr)
    | (.error e, table1, tr) => (.error e, table1, .tableSelectLimit1 :: tr)

/-- search_knowledge_base (lines 149-175): embeds the query, calls the
match_documents RPC with match_count top_k, and reformats result.data.
Exceptions of either call are not caught and propagate. -/
def search_knowledge_base (env : Env) (query : String) (top_k : Nat := 5) :
    Except String (List RetrievalItem) × List ExtCall :=
  let req : EmbedRequest := { input := query, model := "text-embedding-3-small" }
  match env.embed req with
  | .error e => (.error e, [.embeddingsCreate req])
  | .ok query_embedding =>
    match env.matchDocuments query_embedding top_k with
    | .error e =>
      (.error e, [.embeddingsCreate req, .rpcMatchDocuments query_embedding top_k])
    | .ok data =>
      if data = [] then
        (.ok [], [.embeddingsCreate req, .rpcMatchDocuments query_embedding top_k])
      else
        (.ok (data.map (fun item =>
            { content := item.content, metadata := item.metadata,
              similarity := item.similarity })),
         [.embeddingsCreate req, .rpcMatchDocuments query_embedding top_k])

/-- ask_gpt (lines 216-228): single model call at temperature 0.7; any
exception is caught and turned into the string "Erro ao processar: ...".
This function never raises, so its result is a plain String. -/
def ask_gpt (env : Env) (prompt : String) (system_prompt : String := SYSTEM_PROMPT) :
    String × List ExtCall :=
  let req : ChatRequest :=
    { model := "gpt-4o",
      messages := [{ role := "system", content := system_prompt },
                   { role := "user", content := prompt }],
      temperature := 7/10 }
  match env.chat req with
  | .ok content => (content, [.chatCompletionsCreate req])
  | .error e => ("Erro ao processar: " ++ e, [.chatCompletionsCreate req])

/-- Source-title accumulation loop of ask_with_knowledge (lines 201-206):
collect the "title" metadata value of each context, skipping duplicates. -/
def collectSources : List RetrievalItem → List MetaValue → List MetaValue
  | [], sources => sources
  | context :: rest, sources =>
    match context.metadata.lookup "title" with
    | some source =>
      if source ∈ sources then collectSources rest sources
      else collectSources rest (sources ++ [source])
    | none => collectSources rest sources

/-- Python f-string rendering of a metadata value. -/
def metaText : MetaValue → String
  | .str s => s
  | .nat n => toString n

/-- Sources block appending of ask_with_knowledge (lines 208-211): when the
sources list is non-empty, append the Fontes header and one line per
source; otherwise leave the answer unchanged. -/
def fontesAppend (answer : String) (sources : List MetaValue) : String :=
  if sources.isEmpty then answer
  else sources.foldl (fun acc s => acc ++ "- " ++ metaText s ++ "\n")
    (answer ++ "\n\n**Fontes:**\n")

/-- ask_with_knowledge (lines 178-213): retrieve contexts; on an empty
result fall back to ask_gpt; otherwise build the grounded prompt from the
concatenated context contents, call the model at temperature 0.7 with a
single system message, and append the deduplicated source titles. The
retrieval calls and the grounded model call are not wrapped in try/except,
so their exceptions propagate (modelled by `Except.error`). -/
def ask_with_knowledge (env : Env) (question : String) :
    Except String String × List ExtCall :=
  match search_knowledge_base env question with
  | (.error e, tr) => (.error e, tr)
  | (.ok contexts, tr) =>
    if contexts = [] then
      let fallback := ask_gpt env question
      (.ok fallback.1, tr ++ fallback.2)
    else
      let context_text := String.intercalate "\n\n---\n\n" (contexts.map (fun c => c.content))
      let req : ChatRequest :=
        { model := "gpt-4o",
          messages := [{ role := "system",
                         content := KNOWLEDGE_PROMPT context_text question }],
          temperature := 7/10 }
      match env.chat req with
      | .error e => (.error e, tr ++ [.chatCompletionsCreate req])
      | .ok answer =>
        let sources := collectSources contexts []
        (.ok (fontesAppend answer sources), tr ++ [.chatCompletionsCreate req])

/-- analyze_funnel (lines 231-233). -/
def analyze_funnel (env : Env) (description : String) : String × List ExtCall :=
  ask_gpt env (FUNNEL_ANALYSIS_PROMPT ++ description)

/-- create_email (lines 236-242). -/
def create_email (env : Env) (offer audience objective : String) :
    String × List ExtCall :=
  ask_gpt env (EMAIL_F4_PROMPT offer audience objective)

/-- check_documents (lines 423-429), applied to the outcome of the probe
select: True iff the query succeeded and returned at least one row; any
exception yields False. -/
def check_documents (probe : Except String (List String)) : Bool :=
  match probe with
  | .ok data => decide (data.length > 0)
  | .error _ => false

/-- st.session_state as used by the app: the chat history under key
"messages" (absence of the key is equivalent to the empty list, since tab1
initialises it to [] before any read) and the document-presence flag under
key "has_documents" (`none` models the key being absent). -/
structure SessionState where
  messages : List ChatMessage
  has_documents : Option Bool
deriving DecidableEq

/-- Uploaded file object: .name and its binary content. -/
structure UploadedFile where
  name : String
  data : String
deriving DecidableEq

/-- User-visible outcome of one submission of the upload form:
st.success with title and chunk count (line 335), st.error for a
non-extractable document (line 337), or st.error from the catch-all
except (line 340). `noFile` covers a submission without a file, where the
handler body is skipped. -/
inductive UploadOutcome where
  | success (title : String) (chunk_count : Nat)
  | extractionFailed
  | processingError (msg : String)
  | noFile
deriving DecidableEq

/-- Metadata dict built by the upload handler (lines 317-327): title and
filename always, author and category only when the form field is
non-empty (Python string truthiness). -/
def uploadMetadata (title author category filename : String) :
    List (String × MetaValue) :=
  let metadata : List (String × MetaValue) :=
    [("title", .str title), ("filename", .str filename)]
  let metadata := if author ≠ "" then metadata ++ [("author", .str author)] else metadata
  if category ≠ "" then metadata ++ [("category", .str category)] else metadata

/-- Upload form submission handler (lines 307-340): extract the PDF text
(internal catch), treat None or empty text as extraction failure
(`if text:` is falsy on ""), otherwise split, build metadata, and store;
the surrounding try/except converts any exception from storing into the
processingError message, leaving whatever records were already inserted in
the table. On success the has_documents flag is set directly to True. -/
def upload_form_handler (env : Env) (st : SessionState) (table : List InsertRecord)
    (uploaded_file : Option UploadedFile) (title author category : String) :
    UploadOutcome × SessionState × List InsertRecord :=
  match uploaded_file with
  | none => (.noFile, st, table)
  | some file =>
    match extract_text_from_pdf env file.data with
    | none => (.extractionFailed, st, table)
    | some text =>
      if text = "" then (.extractionFailed, st, table)
      else
        let chunks := split_text env text
        let metadata := uploadMetadata title author category file.name
        match store_embeddings env chunks metadata table with
        | (.ok chunk_count, table1, _) =>
          (.success title chunk_count,
           { st with has_documents := some true }, table1)
        | (.error e, table1, _) =>
          (.processingError ("Erro ao processar documento: " ++ e), st, table1)

/-- Chat submission handler of tab1 (lines 270-293): append the user turn
to the history, produce the answer with ask_with_knowledge when the
has_documents flag is present and True and with ask_gpt otherwise, and
append the assistant turn. An exception propagating from
ask_with_knowledge aborts the handler after the user turn was already
appended, so in that case the assistant turn is missing. -/
def chat_handler (env : Env) (st : SessionState) (prompt : String) :
    Except String String × SessionState :=
  let st1 : SessionState :=
    { st with messages := st.messages ++ [{ role := "user", content := prompt }] }
  let result : Except String String :=
    match st1.has_documents with
    | some true => (ask_with_knowledge env prompt).1
    | _ => .ok (ask_gpt env prompt).1
  match result with
  | .ok response =>
    (.ok response,
     { st1 with
       messages := st1.messages ++ [{ role := "assistant", content := response }] })
  | .error e => (.error e, st1)

/-- Session-level events: the end-of-script initialisation of
has_documents (lines 432-433), a chat submission, an upload submission,
and the two stateless tabs (funnel analysis, email creation). -/
inductive AppEvent where
  | initSession
  | chatSubmit (prompt : String)
  | uploadSubmit (file : Option UploadedFile) (title author category : String)
  | analyzeFunnelClick (description : String)
  | createEmailClick (offer audience objective : String)

/-- One in-process step of the application on the session state and the
external table: only initSession (when the flag is absent), chatSubmit and
uploadSubmit touch the session state; the analysis and email tabs hold no
session state. -/
def appStep (env : Env) (st : SessionState) (table : List InsertRecord) :
    AppEvent → SessionState × List InsertRecord
  | .initSession =>
    match st.has_documents with
    | none => ({ st with has_documents := some (check_documents env.selectProbe) }, table)
    | some _ => (st, table)
  | .chatSubmit prompt => ((chat_handler env st prompt).2, table)
  | .uploadSubmit file title author category =>
    let r := upload_form_handler env st table file title author category
    (r.2.1, r.2.2)
  | .analyzeFunnelClick _ => (st, table)
  | .createEmailClick _ _ _ => (st, table)

/-- Temperatures of the chat completion requests recorded in a trace. -/
def chatTemperatures (trace : List ExtCall) : List ℚ :=
  trace.filterMap (fun c =>
    match c with
    | .chatCompletionsCreate req => some req.temperature
    | _ => none)

/-- Embedding value an environment returns for a chunk, defaulting to []
when the call fails; used only to state theorems about successful calls. -/
def embedVal (env : Env) (chunk : String) : List ℚ :=
  match env.embed { input := chunk, model := "text-embedding-3-small" } with
  | .ok v => v
  | .error _ => []

/-- Record that the store_embeddings loop inserts for the chunk at index i,
assuming its embedding call succeeds. -/
def mkRecord (env : Env) (metadata : List (String × MetaValue))
    (chunk : String) (i : Nat) : InsertRecord :=
  { id := env.uuid i, content := chunk, embedding := embedVal env chunk,
    metadata := setKey metadata "chunk_index" (.nat i) }

/-- Both external calls for the chunk at index i succeed. -/
def stepOk (env : Env) (metadata : List (String × MetaValue))
    (chunk : String) (i : Nat) : Bool :=
  (env.embed { input := chunk, model := "text-embedding-3-small" }).isOk &&
  (env.insert (mkRecord env metadata chunk i)).isOk

/-- Environment in which every external call succeeds, used for concrete
evaluations. -/
def envOk : Env :=
  { embed := fun _ => .ok [1],
    chat := fun _ => .ok "resposta",
    matchDocuments := fun _ _ =>
      .ok [{ content := "ctx", metadata := [("title", .str "Doc")], similarity := 9 }],
    insert := fun _ => .ok (),
    selectStar := .ok (),
    selectProbe := .ok ["id1"],
    uuid := fun i => toString i,
    pdfPages := fun _ => .ok ["página"],
    textSplitter := fun _ _ t => [t] }

/-- Environment whose embedding endpoint always raises. -/
def envEmbedFail : Env := { envOk with embed := fun _ => .error "falha de rede" }

/-- Environment whose chat endpoint always raises and whose table select
raises too. -/
def envAllFail : Env :=
  { envOk with chat := fun _ => .error "boom", selectStar := .error "db down" }

/-- Environment whose PDF reader raises on any file. -/
def envPdfFail : Env := { envOk with pdfPages := fun _ => .error "pdf corrompido" }

/-- Environment reading a given file as two pages "a" and "b". -/
def envPagesTwo : Env := { envOk with pdfPages := fun _ => .ok ["a", "b"] }

/-- Environment reading the same file as the single page "a\nb", whose
concatenated text coincides with that of envPagesTwo. -/
def envPagesOne : Env := { envOk with pdfPages := fun _ => .ok ["a\nb"] }

/-- Fresh session: no chat history, has_documents key absent. -/
def st0 : SessionState := { messages := [], has_documents := none }

/-- Session with the has_documents flag set to True. -/
def stDocs : SessionState := { messages := [], has_documents := some true }

theorem chat_handler_flag (env : Env) (st : SessionState) (prompt : String) :
    ((chat_handler env st prompt).2).has_documents = st.has_documents := by
  unfold chat_handler
  dsimp only
  split <;> rfl

theorem upload_handler_flag (env : Env) (st : SessionState)
    (table : List InsertRecord) (f : Option UploadedFile) (t a c : String)
    (h : st.has_documents = some true) :
    ((upload_form_handler env st table f t a c).2.1).has_documents = some true := by
  unfold upload_form_handler
  split
  · exact h
  · split
    · exact h
    · split
      · exact h
      · dsimp only
        split
        · rfl
        · exact h

/-- C9: when the knowledge-store query inside check_documents raises, the
probe returns False instead of propagating the exception, so a session
starting with no flag is put into ungrounded mode (flag set to False) with
no error surfaced. -/
theorem probe_failure_yields_ungrounded (env : Env) (st : SessionState)
    (table : List InsertRecord) (e : String)
    (hp : env.selectProbe = .error e) (h0 : st.has_documents = none) :
    check_documents env.selectProbe = false ∧
    ((appStep env st table .initSession).1).has_documents = some false := by
  constructor
  · rw [hp]; rfl
  · simp [appStep, h0, hp, check_documents]

theorem probe_failure_yields_ungrounded_witness :
    check_documents ({ envOk with selectProbe := .error "sem conexão" } : Env).selectProbe = false ∧
    ((appStep { envOk with selectProbe := .error "sem conexão" } st0 [] .initSession).1).has_documents = some false :=
  probe_failure_yields_ungrounded { envOk with selectProbe := .error "sem conexão" }
    st0 [] "sem conexão" rfl rfl

/-- C7: when the uploaded file cannot be parsed as a PDF, the upload
handler reports the extraction failure and neither the knowledge table nor
the session state is changed. -/
theorem unparseable_pdf_stores_nothing (env : Env) (st : SessionState)
    (table : List InsertRecord) (file : UploadedFile)
    (title author category : String) (e : String)
    (hpdf : env.pdfPages file.data = .error e) :
    upload_form_handler env st table (some file) title author category =
      (.extractionFailed, st, table) := by
  unfold upload_form_handler extract_text_from_pdf
  simp only [hpdf]

theorem unparseable_pdf_stores_nothing_witness :
    upload_form_handler envPdfFail st0 [] (some { name := "livro.pdf", data := "…" })
      "Livro" "" "" = (.extractionFailed, st0, []) :=
  unparseable_pdf_stores_nothing envPdfFail st0 [] { name := "livro.pdf", data := "…" }
    "Livro" "" "" "pdf corrompido" rfl

/-- C8: once the has_documents flag of a session is True, no in-process
step (session initialisation, chat, upload, funnel analysis, email
creation) ever reverts it, whatever the external store contains. -/
theorem has_documents_never_reverts (env : Env) (st : SessionState)
    (table : List InsertRecord) (ev : AppEvent)
    (h : st.has_documents = some true) :
    ((appStep env st table ev).1).has_documents = some true := by
  cases ev with
  | initSession => simp [appStep, h]
  | chatSubmit prompt => simpa [appStep, chat_handler_flag] using h
  | uploadSubmit f t a c => simpa [appStep] using upload_handler_flag env st table f t a c h
  | analyzeFunnelClick d => simpa [appStep] using h
  | createEmailClick o a b => simpa [appStep] using h

theorem has_documents_never_reverts_witness :
    ((appStep { envOk with selectProbe := .ok [] } stDocs [] .initSession).1).has_documents = some true :=
  has_documents_never_reverts { envOk with selectProbe := .ok [] } stDocs [] .initSession rfl


/-- C10 counterexample: with the has_documents flag True and the embedding
endpoint raising, a chat submission appends only the user turn to the
history before the exception aborts the handler — one turn, not two. -/
theorem chat_failure_appends_only_user_turn :
    (chat_handler envEmbedFail stDocs "pergunta").1 = .error "falha de rede" ∧
    ((chat_handler envEmbedFail stDocs "pergunta").2).messages =
      [{ role := "user", content := "pergunta" }] ∧
    ((chat_handler envEmbedFail stDocs "pergunta").2).messages.length = 1 := by
  refine ⟨rfl, rfl, rfl⟩

/-- C10 (amended): a chat submission first appends the user turn; when the
answer is produced without an uncaught exception it then appends the
assistant turn holding it, leaving earlier turns unchanged and in order;
when the grounded path raises, only the user turn is appended. The flag is
untouched either way. -/
theorem chat_appends_user_then_assistant (env : Env) (st : SessionState)
    (prompt : String) :
    (∀ a, (chat_handler env st prompt).1 = .ok a →
      ((chat_handler env st prompt).2).messages =
        st.messages ++ [{ role := "user", content := prompt },
                        { role := "assistant", content := a }]) ∧
    (∀ e, (chat_handler env st prompt).1 = .error e →
      ((chat_handler env st prompt).2).messages =
        st.messages ++ [{ role := "user", content := prompt }]) ∧
    ((chat_handler env st prompt).2).has_documents = st.has_documents := by
  refine ⟨?_, ?_, chat_handler_flag env st prompt⟩
  · intro a ha
    unfold chat_handler at ha ⊢
    dsimp only at ha ⊢
    split at ha
    · next response heq =>
      cases ha
      simp
    · next e heq => cases ha
  · intro e he
    unfold chat_handler at he ⊢
    dsimp only at he ⊢
    split at he
    · next response heq => cases he
    · next e2 heq => rfl

theorem chat_appends_user_then_assistant_witness :
    ((chat_handler envOk st0 "oi").2).messages =
      [] ++ [{ role := "user", content := "oi" },
             { role := "assistant", content := "resposta" }] :=
  (chat_appends_user_then_assistant envOk st0 "oi").1 "resposta" rfl

/-- C1 counterexample: a grounded knowledge-QA request (non-empty
retrieval) calls the model with temperature 0.7, not 0.1 as the
specification states. -/
theorem grounded_call_temperature_not_point_one :
    (search_knowledge_base envOk "pergunta").1 =
      .ok [{ content := "ctx", metadata := [("title", .str "Doc")], similarity := 9 }] ∧
    chatTemperatures (ask_with_knowledge envOk "pergunta").2 = [7/10] ∧
    (7 : ℚ)/10 ≠ 1/10 := by
  refine ⟨rfl, rfl, by norm_num⟩

/-- C1 (amended): every language-model call made by ask_gpt,
ask_with_knowledge (grounded or fallback), analyze_funnel and create_email
uses temperature 0.7. -/
theorem all_model_calls_temperature_seven_tenths (env : Env)
    (prompt sys question desc offer audience objective : String) :
    ((chatTemperatures (ask_gpt env prompt sys).2).all (fun t => t == (7 : ℚ)/10)) = true ∧
    ((chatTemperatures (ask_with_knowledge env question).2).all (fun t => t == (7 : ℚ)/10)) = true ∧
    ((chatTemperatures (analyze_funnel env desc).2).all (fun t => t == (7 : ℚ)/10)) = true ∧
    ((chatTemperatures (create_email env offer audience objective).2).all (fun t => t == (7 : ℚ)/10)) = true := by
  have hgpt : ∀ p s, ((chatTemperatures (ask_gpt env p s).2).all (fun t => t == (7 : ℚ)/10)) = true := by
    intro p s
    unfold ask_gpt
    dsimp only
    split <;> simp [chatTemperatures]
  have hsearch : ∀ q k, chatTemperatures (search_knowledge_base env q k).2 = [] := by
    intro q k
    unfold search_knowledge_base
    dsimp only
    split
    · rfl
    · split
      · rfl
      · split <;> rfl
  refine ⟨hgpt prompt sys, ?_, hgpt _ _, hgpt _ _⟩
  unfold ask_with_knowledge
  dsimp only
  split
  · next e tr heq =>
    have h2 : tr = (search_knowledge_base env question 5).2 := by rw [heq]
    simp [h2, hsearch]
  · next contexts tr heq =>
    have h2 : tr = (search_knowledge_base env question 5).2 := by rw [heq]
    have happ : ∀ a b : List ExtCall,
        chatTemperatures (a ++ b) = chatTemperatures a ++ chatTemperatures b := by
      intro a b
      simp [chatTemperatures, List.filterMap_append]
    split
    · rw [happ, h2, hsearch question 5, List.nil_append]
      exact hgpt question SYSTEM_PROMPT
    · split <;>
        (rw [happ, h2, hsearch question 5, List.nil_append]; simp [chatTemperatures])

/-- C3 counterexample: in grounded mode a failure of the embedding call is
not converted into a string; ask_with_knowledge propagates it as an
uncaught exception (modelled by the Except.error result), contradicting
the claim that every externally-facing operation converts every failure of
its external calls. -/
theorem grounded_ask_propagates_failure :
    (ask_with_knowledge envEmbedFail "pergunta").1 = .error "falha de rede" := rfl

theorem store_embeddings_ok_length (env : Env) (chunks : List String)
    (metadata : List (String × MetaValue)) (table : List InsertRecord) (n : Nat)
    (h : (store_embeddings env chunks metadata table).1 = .ok n) :
    n = chunks.length := by
  unfold store_embeddings at h
  split at h
  · simp at h
  · split at h
    · next heq =>
      simp only [Except.ok.injEq] at h
      exact h.symm
    · simp at h

/-- C3 (amended): the ungrounded operations (ask_gpt, analyze_funnel,
create_email) convert any model failure into the string
"Erro ao processar: ..." shown as the answer, and the upload handler
converts any storage failure into the processingError message; the
grounded ask path, by contrast, propagates its failures (see the
counterexample). -/
theorem failures_rendered_as_strings_outside_grounded_ask (env : Env)
    (prompt sys desc offer audience objective e : String)
    (hchat : ∀ req, env.chat req = .error e) :
    (ask_gpt env prompt sys).1 = "Erro ao processar: " ++ e ∧
    (analyze_funnel env desc).1 = "Erro ao processar: " ++ e ∧
    (create_email env offer audience objective).1 = "Erro ao processar: " ++ e ∧
    (∀ (st : SessionState) (table : List InsertRecord) (file : UploadedFile)
        (title author category text err : String),
      extract_text_from_pdf env file.data = some text → text ≠ "" →
      (store_embeddings env (split_text env text)
          (uploadMetadata title author category file.name) table).1 = .error err →
      (upload_form_handler env st table (some file) title author category).1 =
        .processingError ("Erro ao processar documento: " ++ err)) := by
  refine ⟨?_, ?_, ?_, ?_⟩
  · unfold ask_gpt
    dsimp only
    rw [hchat]
  · unfold analyze_funnel ask_gpt
    dsimp only
    rw [hchat]
  · unfold create_email ask_gpt
    dsimp only
    rw [hchat]
  · intro st table file title author category text err hx ht hs
    unfold upload_form_handler
    simp only [hx]
    rw [if_neg ht]
    rcases hse : store_embeddings env (split_text env text)
        (uploadMetadata title author category file.name) table with ⟨r, table1, tr⟩
    rw [hse] at hs
    dsimp only at hs
    subst hs
    rfl

theorem failures_rendered_as_strings_outside_grounded_ask_witness :
    (ask_gpt envAllFail "oi" SYSTEM_PROMPT).1 = "Erro ao processar: " ++ "boom" ∧
    (upload_form_handler envAllFail st0 []
        (some { name := "livro.pdf", data := "dados" }) "Livro" "" "").1 =
      .processingError ("Erro ao processar documento: " ++ "db down") :=
  ⟨(failures_rendered_as_strings_outside_grounded_ask envAllFail
      "oi" SYSTEM_PROMPT "d" "o" "a" "b" "boom" (fun _ => rfl)).1,
   (failures_rendered_as_strings_outside_grounded_ask envAllFail
      "oi" SYSTEM_PROMPT "d" "o" "a" "b" "boom" (fun _ => rfl)).2.2.2
     st0 [] { name := "livro.pdf", data := "dados" } "Livro" "" "" "página\n" "db down"
     rfl (by decide) rfl⟩

/-- C2 counterexample: two environments reading the same uploaded file as
2 pages and as 1 page whose text concatenation coincides produce identical
upload results, so the value returned to the caller cannot contain the
count of extracted source pages; only the chunk count is reported. -/
theorem ingestion_result_independent_of_page_count :
    envPagesTwo.pdfPages "f" = .ok ["a", "b"] ∧
    envPagesOne.pdfPages "f" = .ok ["a\nb"] ∧
    (["a", "b"] : List String).length ≠ (["a\nb"] : List String).length ∧
    upload_form_handler envPagesTwo st0 [] (some { name := "doc.pdf", data := "f" }) "T" "" "" =
      upload_form_handler envPagesOne st0 [] (some { name := "doc.pdf", data := "f" }) "T" "" "" ∧
    (upload_form_handler envPagesTwo st0 [] (some { name := "doc.pdf", data := "f" }) "T" "" "").1 =
      .success "T" 1 := by
  exact ⟨rfl, rfl, by decide, rfl, rfl⟩

/-- C2 (amended): a successful ingestion of a parseable PDF reports the
produced chunk count (the length of the split of the extracted text) to
the caller; the page count is not part of the result. -/
theorem ingestion_returns_chunk_count (env : Env) (st : SessionState)
    (table : List InsertRecord) (file : UploadedFile)
    (title author category text : String) (n : Nat)
    (hx : extract_text_from_pdf env file.data = some text)
    (ht : text ≠ "")
    (hs : (store_embeddings env (split_text env text)
            (uploadMetadata title author category file.name) table).1 = .ok n) :
    (upload_form_handler env st table (some file) title author category).1 =
      .success title n ∧
    n = (split_text env text).length := by
  refine ⟨?_, store_embeddings_ok_length _ _ _ _ _ hs⟩
  unfold upload_form_handler
  simp only [hx]
  rw [if_neg ht]
  rcases hse : store_embeddings env (split_text env text)
      (uploadMetadata title author category file.name) table with ⟨r, table1, tr⟩
  rw [hse] at hs
  dsimp only at hs
  subst hs
  rfl

theorem ingestion_returns_chunk_count_witness :
    (upload_form_handler envOk st0 [] (some { name := "doc.pdf", data := "f" }) "T" "" "").1 =
      .success "T" 1 ∧
    1 = (split_text envOk "página\n").length :=
  ingestion_returns_chunk_count envOk st0 [] { name := "doc.pdf", data := "f" }
    "T" "" "" "página\n" 1 rfl (by decide) rfl

theorem retrievalItem_map_eta (data : List RetrievalItem) :
    data.map (fun item => ({ content := item.content,
                             metadata := item.metadata,
                             similarity := item.similarity } : RetrievalItem)) = data := by
  induction data with
  | nil => rfl
  | cons a l ih => simp [ih]

theorem search_knowledge_base_ok (env : Env) (question : String) (emb : List ℚ)
    (data : List RetrievalItem)
    (h1 : env.embed { input := question, model := "text-embedding-3-small" } = .ok emb)
    (h2 : env.matchDocuments emb 5 = .ok data) :
    search_knowledge_base env question =
      (.ok data,
       [.embeddingsCreate { input := question, model := "text-embedding-3-small" },
        .rpcMatchDocuments emb 5]) := by
  unfold search_knowledge_base
  simp only [h1, h2]
  by_cases hd : data = []
  · subst hd; simp
  · rw [if_neg hd, retrievalItem_map_eta]

/-- C4: in grounded mode the question is embedded, the store is asked for
the top 5 matches with that embedding, an empty retrieval falls back to
the ungrounded ask_gpt answer, and a non-empty retrieval produces exactly
one model call whose grounded prompt contains the retrieved contents
concatenated in the returned order. -/
theorem grounded_retrieval_pipeline (env : Env) (question : String)
    (emb : List ℚ) (data : List RetrievalItem)
    (h1 : env.embed { input := question, model := "text-embedding-3-small" } = .ok emb)
    (h2 : env.matchDocuments emb 5 = .ok data) :
    (search_knowledge_base env question).2 =
      [.embeddingsCreate { input := question, model := "text-embedding-3-small" },
       .rpcMatchDocuments emb 5] ∧
    (search_knowledge_base env question).1 = .ok data ∧
    (data = [] → ask_with_knowledge env question =
      (.ok (ask_gpt env question).1,
       [.embeddingsCreate { input := question, model := "text-embedding-3-small" },
        .rpcMatchDocuments emb 5] ++ (ask_gpt env question).2)) ∧
    (data ≠ [] →
      (ask_with_knowledge env question).2 =
        [.embeddingsCreate { input := question, model := "text-embedding-3-small" },
         .rpcMatchDocuments emb 5,
         .chatCompletionsCreate
           { model := "gpt-4o",
             messages := [{ role := "system",
                            content := KNOWLEDGE_PROMPT
                                         (String.intercalate "\n\n---\n\n"
                                           (data.map (fun c => c.content)))
                                         question }],
             temperature := 7/10 }]) := by
  have hsearch := search_knowledge_base_ok env question emb data h1 h2
  refine ⟨by rw [hsearch], by rw [hsearch], ?_, ?_⟩
  · intro hd
    unfold ask_with_knowledge
    rw [hsearch]
    dsimp only
    rw [if_pos hd]
  · intro hd
    unfold ask_with_knowledge
    rw [hsearch]
    dsimp only
    rw [if_neg hd]
    split <;> rfl

theorem grounded_retrieval_pipeline_witness :
    (ask_with_knowledge envOk "pergunta").2 =
      [.embeddingsCreate { input := "pergunta", model := "text-embedding-3-small" },
       .rpcMatchDocuments [1] 5,
       .chatCompletionsCreate
         { model := "gpt-4o",
           messages := [{ role := "system",
                          content := KNOWLEDGE_PROMPT
                                       (String.intercalate "\n\n---\n\n"
                                         (([{ content := "ctx",
                                              metadata := [("title", .str "Doc")],
                                              similarity := 9 }] :
                                            List RetrievalItem).map (fun c => c.content)))
                                       "pergunta" }],
           temperature := 7/10 }] :=
  (grounded_retrieval_pipeline envOk "pergunta" [1]
      [{ content := "ctx", metadata := [("title", .str "Doc")], similarity := 9 }]
      rfl rfl).2.2.2 (List.cons_ne_nil _ _)

theorem collectSources_mem (l : List RetrievalItem) :
    ∀ (acc : List MetaValue) (v : MetaValue),
      v ∈ collectSources l acc ↔
        v ∈ acc ∨ ∃ c ∈ l, c.metadata.lookup "title" = some v := by
  induction l with
  | nil => intro acc v; simp [collectSources]
  | cons c rest ih =>
    intro acc v
    unfold collectSources
    cases hl : c.metadata.lookup "title" with
    | none =>
      rw [ih]
      simp only [List.exists_mem_cons_iff, hl]
      constructor
      · rintro (h | h)
        · exact Or.inl h
        · exact Or.inr (Or.inr h)
      · rintro (h | h | h)
        · exact Or.inl h
        · cases h
        · exact Or.inr h
    | some s =>
      dsimp only
      by_cases hmem : s ∈ acc
      · rw [if_pos hmem, ih]
        simp only [List.exists_mem_cons_iff, hl, Option.some.injEq]
        constructor
        · rintro (h | h)
          · exact Or.inl h
          · exact Or.inr (Or.inr h)
        · rintro (h | h | h)
          · exact Or.inl h
          · subst h; exact Or.inl hmem
          · exact Or.inr h
      · rw [if_neg hmem, ih]
        simp only [List.mem_append, List.mem_singleton,
          List.exists_mem_cons_iff, hl, Option.some.injEq]
        constructor
        · rintro ((h | h) | h)
          · exact Or.inl h
          · exact Or.inr (Or.inl h.symm)
          · exact Or.inr (Or.inr h)
        · rintro (h | h | h)
          · exact Or.inl (Or.inl h)
          · exact Or.inl (Or.inr h.symm)
          · exact Or.inr h

theorem collectSources_nodup (l : List RetrievalItem) :
    ∀ acc : List MetaValue, acc.Nodup → (collectSources l acc).Nodup := by
  induction l with
  | nil => intro acc h; simpa [collectSources] using h
  | cons c rest ih =>
    intro acc h
    unfold collectSources
    cases hl : c.metadata.lookup "title" with
    | none => exact ih acc h
    | some s =>
      dsimp only
      by_cases hmem : s ∈ acc
      · rw [if_pos hmem]; exact ih acc h
      · rw [if_neg hmem]
        refine ih _ ?_
        simp [List.nodup_append, h, hmem]

theorem collectSources_no_titles (l : List RetrievalItem)
    (h : ∀ c ∈ l, c.metadata.lookup "title" = none) :
    ∀ acc : List MetaValue, collectSources l acc = acc := by
  induction l with
  | nil => intro acc; rfl
  | cons c rest ih =>
    intro acc
    unfold collectSources
    rw [h c (List.mem_cons_self c rest)]
    exact ih (fun d hd => h d (List.mem_cons_of_mem c hd)) acc

/-- C5: a grounded answer built from a non-empty retrieval appends the
Fontes block listing the title metadata values of the retrieved chunks
without duplicates (order of first occurrence, each value appearing
exactly when some retrieved chunk carries it as title); when no retrieved
chunk has a title the answer is returned unchanged. -/
theorem grounded_answer_fontes_section (env : Env) (question : String)
    (emb : List ℚ) (data : List RetrievalItem) (a : String)
    (h1 : env.embed { input := question, model := "text-embedding-3-small" } = .ok emb)
    (h2 : env.matchDocuments emb 5 = .ok data)
    (h3 : data ≠ [])
    (h4 : env.chat
      { model := "gpt-4o",
        messages := [{ role := "system",
                       content := KNOWLEDGE_PROMPT
                                    (String.intercalate "\n\n---\n\n"
                                      (data.map (fun c => c.content)))
                                    question }],
        temperature := 7/10 } = .ok a) :
    (ask_with_knowledge env question).1 =
      .ok (fontesAppend a (collectSources data [])) ∧
    (collectSources data []).Nodup ∧
    (∀ v, v ∈ collectSources data [] ↔
      ∃ c ∈ data, c.metadata.lookup "title" = some v) ∧
    ((∀ c ∈ data, c.metadata.lookup "title" = none) →
      (ask_with_knowledge env question).1 = .ok a) := by
  have hsearch := search_knowledge_base_ok env question emb data h1 h2
  have hmain : (ask_with_knowledge env question).1 =
      .ok (fontesAppend a (collectSources data [])) := by
    unfold ask_with_knowledge
    rw [hsearch]
    dsimp only
    rw [if_neg h3]
    simp only [h4]
  refine ⟨hmain, collectSources_nodup data [] List.nodup_nil, ?_, ?_⟩
  · intro v
    simpa using collectSources_mem data [] v
  · intro hno
    rw [hmain, collectSources_no_titles data hno []]
    simp [fontesAppend]

theorem grounded_answer_fontes_section_witness :
    (ask_with_knowledge envOk "pergunta").1 =
      .ok (fontesAppend "resposta"
        (collectSources [{ content := "ctx", metadata := [("title", .str "Doc")],
                           similarity := 9 }] [])) :=
  (grounded_answer_fontes_section envOk "pergunta" [1]
    [{ content := "ctx", metadata := [("title", .str "Doc")], similarity := 9 }]
    "resposta" rfl rfl (List.cons_ne_nil _ _) rfl).1

theorem store_go_fail (env : Env) (md : List (String × MetaValue)) :
    ∀ (l : List String) (n : Nat) (table : List InsertRecord) (K : Nat),
      K < l.length →
      (∀ i, i < K → stepOk env md (l.getD i "") (n + i) = true) →
      stepOk env md (l.getD K "") (n + K) = false →
      (store_embeddings_go env md l n table).1.isOk = false ∧
      (store_embeddings_go env md l n table).2.1 =
        table ++ (List.range K).map (fun i => mkRecord env md (l.getD i "") (n + i)) := by
  intro l
  induction l with
  | nil =>
    intro n table K hK
    simp at hK
  | cons c rest ih =>
    intro n table K hK hsucc hfail
    cases K with
    | zero =>
      unfold store_embeddings_go
      dsimp only
      rw [List.getD_cons_zero, Nat.add_zero] at hfail
      cases hembed : env.embed { input := c, model := "text-embedding-3-small" } with
      | error e => simp [Except.isOk, Except.toBool]
      | ok v =>
        dsimp only
        have hrec : mkRecord env md c n =
            { id := env.uuid n, content := c, embedding := v,
              metadata := setKey md "chunk_index" (.nat n) } := by
          simp [mkRecord, embedVal, hembed]
        rw [← hrec]
        cases hins : env.insert (mkRecord env md c n) with
        | error e => simp [Except.isOk, Except.toBool]
        | ok u =>
          exfalso
          simp [stepOk, hembed, hins, Except.isOk, Except.toBool] at hfail
    | succ K2 =>
      have hstep := hsucc 0 (Nat.succ_pos K2)
      rw [List.getD_cons_zero, Nat.add_zero] at hstep
      have hK2 : K2 < rest.length := by
        simp only [List.length_cons] at hK
        omega
      unfold store_embeddings_go
      dsimp only
      cases hembed : env.embed { input := c, model := "text-embedding-3-small" } with
      | error e =>
        exfalso
        simp [stepOk, hembed, Except.isOk, Except.toBool] at hstep
      | ok v =>
        dsimp only
        have hrec : mkRecord env md c n =
            { id := env.uuid n, content := c, embedding := v,
              metadata := setKey md "chunk_index" (.nat n) } := by
          simp [mkRecord, embedVal, hembed]
        rw [← hrec]
        cases hins : env.insert (mkRecord env md c n) with
        | error e =>
          exfalso
          simp [stepOk, hembed, hins, Except.isOk, Except.toBool] at hstep
        | ok u =>
          dsimp only
          have ihr := ih (n + 1) (table ++ [mkRecord env md c n]) K2 hK2
            (by
              intro i hi
              have h2 := hsucc (i + 1) (Nat.succ_lt_succ hi)
              rw [List.getD_cons_succ] at h2
              have harith : n + (i + 1) = n + 1 + i := by omega
              rw [harith] at h2
              exact h2)
            (by
              have h2 := hfail
              rw [List.getD_cons_succ] at h2
              have harith : n + (K2 + 1) = n + 1 + K2 := by omega
              rw [harith] at h2
              exact h2)
          refine ⟨ihr.1, ?_⟩
          rw [ihr.2]
          rw [List.range_succ_eq_map, List.map_cons, List.map_map]
          have hfun : ((fun i => mkRecord env md ((c :: rest).getD i "") (n + i)) ∘ Nat.succ) =
              fun i => mkRecord env md (rest.getD i "") (n + 1 + i) := by
            funext i
            have harith : n + (i + 1) = n + 1 + i := by omega
            simp [Function.comp, List.getD_cons_succ, harith]
          rw [hfun]
          rw [List.getD_cons_zero, Nat.add_zero]
          simp [List.append_assoc]

/-- C6: when the external calls for the first K chunks succeed and the
embedding or insert call for the next chunk fails, the ingestion loop
stops with that failure and the table holds exactly the records of the
first K chunks appended to its previous content: no rollback or
compensating deletion happens. -/
theorem ingestion_partial_failure_keeps_prefix (env : Env)
    (md : List (String × MetaValue)) (chunks : List String)
    (table : List InsertRecord) (K : Nat)
    (hsel : env.selectStar = .ok ())
    (hK : K < chunks.length)
    (hsucc : ∀ i, i < K → stepOk env md (chunks.getD i "") i = true)
    (hfail : stepOk env md (chunks.getD K "") K = false) :
    (store_embeddings env chunks md table).1.isOk = false ∧
    (store_embeddings env chunks md table).2.1 =
      table ++ (List.range K).map (fun i => mkRecord env md (chunks.getD i "") i) := by
  have h := store_go_fail env md chunks 0 table K hK
    (by intro i hi; simpa [Nat.zero_add] using hsucc i hi)
    (by simpa [Nat.zero_add] using hfail)
  unfold store_embeddings
  simp only [hsel]
  rcases hgo : store_embeddings_go env md chunks 0 table with ⟨r, t1, tr⟩
  rw [hgo] at h
  cases r with
  | ok u => simp [Except.isOk, Except.toBool] at h
  | error e =>
    refine ⟨rfl, ?_⟩
    simpa [Nat.zero_add] using h.2

/-- Environment whose embedding endpoint succeeds for the chunk "a" and
raises for the chunk "b". -/
def envC6 : Env :=
  { envOk with embed := fun req => if req.input = "b" then .error "falha" else .ok [1] }

theorem ingestion_partial_failure_keeps_prefix_witness :
    (store_embeddings envC6 ["a", "b"] [("title", .str "T")] []).1.isOk = false ∧
    (store_embeddings envC6 ["a", "b"] [("title", .str "T")] []).2.1 =
      [] ++ (List.range 1).map (fun i =>
        mkRecord envC6 [("title", .str "T")] ((["a", "b"] : List String).getD i "") i) :=
  ingestion_partial_failure_keeps_prefix envC6 [("title", .str "T")] ["a", "b"] [] 1
    rfl (by decide)
    (by intro i hi; interval_cases i; decide)
    (by decide)
